import Mathlib

/-!
Shallow embedding of the voter-verification / ballot-issuance / vote-casting
pipeline of the dit_backend repository.

Sources embedded:
- src/src/controllers/verification.controller.js : requestOTP, confirmOTP
- src/unnamed/part_004 (vote controller)         : castVote
  (src/unnamed/part_003 contains a second copy of the vote controller whose
  branching logic is identical; the only difference is that it truncates the
  current time to whole minutes before the comparison, which is immaterial here
  because the current instant is an explicit parameter of the model.)

Modelling conventions:
- Timestamps are Nat (milliseconds since epoch, as produced by Date.now()).
- Each Prisma table is a List of rows inside a DB record; creates append rows,
  updates map over the rows.
- External effects (bcrypt, crypto randomness, the notification gateway and the
  audit sink, all in utils/ files absent from src/) are modelled from the spec
  via explicit parameters and abstract functions, documented at each definition.
- Every handler returns the HTTP response it sends together with the storage
  state left behind, so that atomicity and partial-failure claims are statable.
-/

/-- Status values of the EligibleVoter roster rows. -/
inductive VoterStatus
  | ELIGIBLE
  | INELIGIBLE
deriving DecidableEq, Repr

/-- Status values of Ballot rows: ACTIVE until redeemed, then CONSUMED. -/
inductive BallotStatus
  | ACTIVE
  | CONSUMED
deriving DecidableEq, Repr

/-- Approval status of Candidate rows; only APPROVED candidates are votable. -/
inductive CandStatus
  | APPROVED
  | PENDING
  | REJECTED
deriving DecidableEq, Repr

/-- A row of the EligibleVoter table (roster lookup by registration number). -/
structure Voter where
  id : Nat
  regNo : String
  status : VoterStatus
  email : Option String
  phone : Option String
deriving DecidableEq, Repr

/-- A row of the Verification table (the OTP Challenge record): hashed code,
issuance and expiry instants, optional verified-at/consumed-at marks and the
ballot token recorded for traceability. -/
structure Verification where
  id : Nat
  voterId : Nat
  otpHash : String
  issuedAt : Nat
  expiresAt : Nat
  verifiedAt : Option Nat
  consumedAt : Option Nat
  ballotToken : Option String
deriving DecidableEq, Repr

/-- A row of the Ballot table: single-use token owned by a voter. -/
structure Ballot where
  id : Nat
  voterId : Nat
  token : String
  status : BallotStatus
  issuedAt : Nat
  consumedAt : Option Nat
deriving DecidableEq, Repr

/-- A row of the Position table: voting window bounds as instants. -/
structure Position where
  id : Nat
  name : String
  votingOpens : Nat
  votingCloses : Nat
deriving DecidableEq, Repr

/-- A row of the Candidate table. -/
structure Candidate where
  id : Nat
  positionId : Nat
  status : CandStatus
deriving DecidableEq, Repr

/-- A row of the Vote table: one (ballot, position, candidate) record. -/
structure VoteRow where
  ballotId : Nat
  positionId : Nat
  candidateId : Nat
deriving DecidableEq, Repr

/-- One element of the votes array submitted to POST /vote/cast. -/
structure VoteSel where
  positionId : Nat
  candidateId : Nat
deriving DecidableEq, Repr

/-- The durable relational store, plus the list of audit events that have been
recorded by the audit sink (action names, in order). -/
structure DB where
  voters : List Voter
  verifications : List Verification
  ballots : List Ballot
  positions : List Position
  candidates : List Candidate
  votes : List VoteRow
  auditLog : List String
deriving DecidableEq, Repr

/-- The distinct HTTP responses the three handlers can send.  Each constructor
stands for one literal res.status(...).json(...) site in the source. -/
inductive Resp
  | regRequired
  | voterNotFound
  | notEligible
  | alreadyVoted
  | rateLimited
  | emailMissing
  | phoneMissing
  | deliveryFailed
  | otpSent (sentVia : List String)
  | fieldsRequired
  | noValidChallenge
  | invalidOTP
  | confirmSuccess (ballotToken : String)
  | tokenRequired
  | votesRequired
  | invalidToken
  | ballotUsed
  | windowClosed (closedNames : List String)
  | invalidCandidate
  | dupPosition
  | dupVote
  | castSuccess (count : Nat)
  | internalError
deriving DecidableEq, Repr

/-- HTTP status code attached to each response site in the source. -/
def Resp.status : Resp → Nat
  | .regRequired => 400
  | .voterNotFound => 404
  | .notEligible => 400
  | .alreadyVoted => 400
  | .rateLimited => 429
  | .emailMissing => 400
  | .phoneMissing => 400
  | .deliveryFailed => 500
  | .otpSent _ => 200
  | .fieldsRequired => 400
  | .noValidChallenge => 400
  | .invalidOTP => 401
  | .confirmSuccess _ => 200
  | .tokenRequired => 400
  | .votesRequired => 400
  | .invalidToken => 404
  | .ballotUsed => 400
  | .windowClosed _ => 400
  | .invalidCandidate => 400
  | .dupPosition => 400
  | .dupVote => 400
  | .castSuccess _ => 200
  | .internalError => 500

/-- Uppercasing of the submitted registration number, reg_no.toUpperCase(). -/
def upperStr (s : String) : String := ⟨s.data.map Char.toUpper⟩

/-- Modelled from the spec: bcrypt one-way hashing from the absent utils module
(bcryptjs), abstracted as an injective tagging of the plaintext code. -/
def bcryptHash (code : String) : String := "H:" ++ code

/-- Modelled from the spec: bcrypt.compare checks the presented code against
the stored hash. -/
def bcryptCompare (code h : String) : Bool := bcryptHash code == h

/-- The roster lookup prisma.eligibleVoter.findUnique on regNo equal to the
uppercased submitted registration number (shared by requestOTP and
confirmOTP). -/
def lookupVoter (db : DB) (reg_no : String) : Option Voter :=
  db.voters.find? (fun v => v.regNo == upperStr reg_no)

/-- The findFirst existence check for a CONSUMED ballot of this voter (the
lifetime one-vote check of requestOTP and confirmOTP). -/
def hasConsumedBallot (db : DB) (vid : Nat) : Bool :=
  db.ballots.any (fun b => b.voterId == vid && decide (b.status = BallotStatus.CONSUMED))

/-- Row filter of the requestOTP rate-limit query: same voter, issued within
the last two minutes, not yet verified. -/
def recentUnverified (now vid : Nat) (c : Verification) : Bool :=
  c.voterId == vid && decide (now - 120000 ≤ c.issuedAt) && c.verifiedAt.isNone

/-- Row filter of the confirmOTP challenge query: same voter, verified-at
unset, consumed-at unset, expiresAt gte now (not expired). -/
def validChallenge (now vid : Nat) (c : Verification) : Bool :=
  c.voterId == vid && c.verifiedAt.isNone && c.consumedAt.isNone
    && decide (now ≤ c.expiresAt)

/-- The element with the largest issuedAt (the findFirst with orderBy issuedAt
desc); none on the empty list. -/
def latestBy : List Verification → Option Verification
  | [] => none
  | c :: cs =>
    match latestBy cs with
    | none => some c
    | some b => some (if b.issuedAt < c.issuedAt then c else b)

/-- The challenge confirmOTP locates: most recent row passing validChallenge. -/
def locateChallenge (db : DB) (vid now : Nat) : Option Verification :=
  latestBy (db.verifications.filter (validChallenge now vid))

/-- Autoincrement model for new Verification row ids. -/
def nextVerifId (db : DB) : Nat := db.verifications.length + 1

/-- Autoincrement model for new Ballot row ids. -/
def nextBallotId (db : DB) : Nat := db.ballots.length + 1

/-- Running tally of delivery outcomes mutated by the promise callbacks of
sendOTPEmail / sendOTPSMS inside requestOTP. -/
structure Dispatch where
  sentMethods : List String
  failedMethods : List String
deriving DecidableEq, Repr

/-- The dispatch state the handler observes at the sentMethods.length check:
the two gateway calls are issued without await, so their then/catch callbacks
are merely scheduled as microtasks; no callback can run before the synchronous
continuation reaches the check, hence both lists are still empty there. -/
def dispatchAtCheck : Dispatch := { sentMethods := [], failedMethods := [] }

/-- The dispatch state after the scheduled callbacks have eventually run: an
outcome of true pushes the channel name onto sentMethods, false onto
failedMethods (email first, then SMS, matching the order of the two calls). -/
def dispatchRun (emailOk smsOk : Bool) : Dispatch :=
  { sentMethods := (if emailOk then ["email"] else []) ++ (if smsOk then ["SMS"] else [])
    failedMethods := (if emailOk then [] else ["email"]) ++ (if smsOk then [] else ["SMS"]) }

/-- Append one audit event to the log when the sink accepts (ok); a rejecting
sink records nothing. -/
def appendAudit (db : DB) (ok : Bool) (evt : String) : DB :=
  if ok then { db with auditLog := db.auditLog ++ [evt] } else db

/-- The Verification row prisma.verification.create inserts in requestOTP:
hash of the fresh code, issued now, expiring in 5 minutes. -/
def newChallenge (db : DB) (vid : Nat) (otpHash : String) (now : Nat) : Verification :=
  { id := nextVerifId db, voterId := vid, otpHash := otpHash
    issuedAt := now, expiresAt := now + 300000
    verifiedAt := none, consumedAt := none, ballotToken := none }

/-- Insert a Verification row. -/
def addChallenge (db : DB) (c : Verification) : DB :=
  { db with verifications := db.verifications ++ [c] }

/-- The audit events the delivery-failure callbacks fire-and-forget (their own
errors are swallowed by .catch): one per failed channel, when the sink
accepts. -/
def deliveryFailureAudits (db : DB) (emailOk smsOk auditOk : Bool) : DB :=
  appendAudit (appendAudit db (!emailOk && auditOk) "OTP_EMAIL_FAILED")
    (!smsOk && auditOk) "OTP_SMS_FAILED"

/-- The storage-and-audit state right after requestOTP dispatches the two
sends: the Challenge row is created, and the failure callbacks will
eventually add their audit events. -/
def afterDispatch (db : DB) (vid : Nat) (otpHash : String) (now : Nat)
    (emailOk smsOk auditOk : Bool) : DB :=
  deliveryFailureAudits (addChallenge db (newChallenge db vid otpHash now))
    emailOk smsOk auditOk

/-- POST /verify/request-otp (requestOTP of verification.controller.js).

Parameters standing for external effects: otpHash is the bcrypt hash of the
freshly generated random code; emailOk / smsOk are the eventual outcomes of the
two gateway deliveries (modelled from the spec: sendOTPEmail and sendOTPSMS of
the absent utils modules each return a promise that succeeds or fails
independently); auditOk is whether the audit sink accepts logAudit calls.

The returned DB is the eventual storage/audit state; the returned Resp is the
HTTP response.  The delivery check reads dispatchAtCheck (see its doc) because
the source never awaits the two send calls before testing sentMethods; in the
(dead) success branch the awaited logAudit(OTP_REQUESTED) turns a rejecting
sink into the generic 500 through the surrounding try/catch. -/
def requestOTP (db : DB) (now : Nat) (reg_no : String) (otpHash : String)
    (emailOk smsOk auditOk : Bool) : Resp × DB :=
  if reg_no = "" then (Resp.regRequired, db) else
  match lookupVoter db reg_no with
  | none => (Resp.voterNotFound, db)
  | some voter =>
    if voter.status ≠ VoterStatus.ELIGIBLE then (Resp.notEligible, db) else
    if hasConsumedBallot db voter.id then (Resp.alreadyVoted, db) else
    if db.verifications.any (recentUnverified now voter.id) then (Resp.rateLimited, db) else
    if voter.email.isNone then (Resp.emailMissing, db) else
    if voter.phone.isNone then (Resp.phoneMissing, db) else
    if dispatchAtCheck.sentMethods.length = 0 then
      (Resp.deliveryFailed, afterDispatch db voter.id otpHash now emailOk smsOk auditOk)
    else
      if auditOk then
        (Resp.otpSent (dispatchRun emailOk smsOk).sentMethods,
          appendAudit (afterDispatch db voter.id otpHash now emailOk smsOk auditOk)
            true "OTP_REQUESTED")
      else (Resp.internalError, afterDispatch db voter.id otpHash now emailOk smsOk auditOk)

/-- Set verified-at of one Verification row (the first update of the
confirmOTP success path). -/
def setVerifiedAt (verifId now : Nat) (c : Verification) : Verification :=
  if c.id = verifId then { c with verifiedAt := some now } else c

/-- Apply setVerifiedAt across the Verification table. -/
def markVerifiedAt (db : DB) (verifId now : Nat) : DB :=
  { db with verifications := db.verifications.map (setVerifiedAt verifId now) }

/-- The ACTIVE Ballot row prisma.ballot.create inserts in confirmOTP. -/
def newBallotOf (db : DB) (vid : Nat) (tok : String) (now : Nat) : Ballot :=
  { id := nextBallotId db, voterId := vid, token := tok
    status := BallotStatus.ACTIVE, issuedAt := now, consumedAt := none }

/-- Insert a Ballot row. -/
def addBallot (db : DB) (b : Ballot) : DB := { db with ballots := db.ballots ++ [b] }

/-- Record the minted token on the Verification row for traceability (the
second update of the confirmOTP success path). -/
def setBallotToken (verifId : Nat) (tok : String) (c : Verification) : Verification :=
  if c.id = verifId then { c with ballotToken := some tok } else c

/-- Apply setBallotToken across the Verification table. -/
def recordBallotToken (db : DB) (verifId : Nat) (tok : String) : DB :=
  { db with verifications := db.verifications.map (setBallotToken verifId tok) }

/-- The storage state after the three awaited writes of the confirmOTP
success path: verified-at set, ballot created, token recorded. -/
def afterIssue (db : DB) (verifId vid : Nat) (newToken : String) (now : Nat) : DB :=
  recordBallotToken
    (addBallot (markVerifiedAt db verifId now) (newBallotOf db vid newToken now))
    verifId newToken

/-- POST /verify/confirm-otp (confirmOTP of verification.controller.js).

newToken stands for the crypto.randomBytes(32) ballot token; auditOk is whether
the audit sink accepts logAudit calls (both logAudit calls in this handler are
awaited inside the try block, so a rejecting sink falls into the catch and the
generic 500 is sent — after any database writes already performed). -/
def confirmOTP (db : DB) (now : Nat) (reg_no otp : String) (newToken : String)
    (auditOk : Bool) : Resp × DB :=
  if reg_no = "" ∨ otp = "" then (Resp.fieldsRequired, db) else
  match lookupVoter db reg_no with
  | none => (Resp.voterNotFound, db)
  | some voter =>
    match locateChallenge db voter.id now with
    | none => (Resp.noValidChallenge, db)
    | some verif =>
      if bcryptCompare otp verif.otpHash = false then
        if auditOk then
          (Resp.invalidOTP, appendAudit db true "OTP_VERIFICATION_FAILED")
        else (Resp.internalError, db)
      else
      if hasConsumedBallot db voter.id then (Resp.alreadyVoted, db) else
      if auditOk then
        (Resp.confirmSuccess newToken,
          appendAudit (afterIssue db verif.id voter.id newToken now)
            true "OTP_VERIFIED_BALLOT_ISSUED")
      else (Resp.internalError, afterIssue db verif.id voter.id newToken now)

/-- Result rows of the voting-window query of castVote: stored positions whose
id occurs among the submitted positionIds (Prisma id-in, deduplicating) and
whose window satisfies votingOpens lte now and votingCloses gte now. -/
def openFilter (db : DB) (now : Nat) (votes : List VoteSel) : List Position :=
  db.positions.filter
    (fun p => (votes.map (·.positionId)).contains p.id
      && (decide (p.votingOpens ≤ now) && decide (now ≤ p.votingCloses)))

/-- Names reported in the window-error response: targeted stored positions
with now strictly outside [votingOpens, votingCloses]. -/
def closedNamesFor (db : DB) (now : Nat) (votes : List VoteSel) : List String :=
  (db.positions.filter
    (fun p => (votes.map (·.positionId)).contains p.id
      && (decide (now < p.votingOpens) || decide (p.votingCloses < now)))).map (·.name)

/-- Result rows of the candidate query of castVote: stored APPROVED candidates
whose id occurs among the submitted candidateIds. -/
def approvedFilter (db : DB) (votes : List VoteSel) : List Candidate :=
  db.candidates.filter
    (fun c => (votes.map (·.candidateId)).contains c.id
      && decide (c.status = CandStatus.APPROVED))

/-- Prior Vote rows of this ballot for any submitted position (the
duplicate-vote query of castVote). -/
def existingFor (db : DB) (bid : Nat) (votes : List VoteSel) : List VoteRow :=
  db.votes.filter
    (fun w => w.ballotId == bid && (votes.map (·.positionId)).contains w.positionId)

/-- The Vote rows the commit transaction of castVote inserts. -/
def newVotesOf (bid : Nat) (votes : List VoteSel) : List VoteRow :=
  votes.map (fun v =>
    { ballotId := bid, positionId := v.positionId, candidateId := v.candidateId })

/-- Commit of the vote-create transaction: append the new Vote rows. -/
def commitVotes (db : DB) (bid : Nat) (votes : List VoteSel) : DB :=
  { db with votes := db.votes ++ newVotesOf bid votes }

/-- The separate prisma.ballot.update statement: flip the ballot to CONSUMED
with a consumed-at timestamp. -/
def consumeRow (bid now : Nat) (b : Ballot) : Ballot :=
  if b.id = bid
  then { b with status := BallotStatus.CONSUMED, consumedAt := some now } else b

/-- Apply consumeRow across the Ballot table. -/
def consumeBallot (db : DB) (bid now : Nat) : DB :=
  { db with ballots := db.ballots.map (consumeRow bid now) }

/-- POST /vote/cast (castVote of the vote controller, src/unnamed/part_004).

updateOk is whether the prisma.ballot.update statement that marks the ballot
CONSUMED succeeds: in the source this statement runs after, and outside of, the
prisma.dollar-transaction that inserts the Vote rows, so when it throws the
already committed Vote rows stay (commitVotes) and the catch sends the generic
500.  auditOk is whether the audit sink accepts the fire-and-forget logAudit
call (its rejection is swallowed by .catch and never reaches the response). -/
def castVote (db : DB) (now : Nat) (token : String) (votes : List VoteSel)
    (updateOk auditOk : Bool) : Resp × DB :=
  if token = "" then (Resp.tokenRequired, db) else
  if votes.length = 0 then (Resp.votesRequired, db) else
  match db.ballots.find? (fun b => b.token == token) with
  | none => (Resp.invalidToken, db)
  | some ballot =>
    if ballot.status = BallotStatus.CONSUMED then (Resp.ballotUsed, db) else
    if (openFilter db now votes).length ≠ votes.length then
      (Resp.windowClosed (closedNamesFor db now votes), db)
    else
    if (approvedFilter db votes).length ≠ votes.length then (Resp.invalidCandidate, db) else
    if (votes.map (·.positionId)).dedup.length ≠ (votes.map (·.positionId)).length then
      (Resp.dupPosition, db) else
    if (existingFor db ballot.id votes).length ≠ 0 then (Resp.dupVote, db) else
    if updateOk = false then (Resp.internalError, commitVotes db ballot.id votes) else
    (Resp.castSuccess (newVotesOf ballot.id votes).length,
      appendAudit (consumeBallot (commitVotes db ballot.id votes) ballot.id now)
        auditOk "CAST_VOTE")

/-- Number of CONSUMED ballots a voter has in a given state. -/
def consumedCount (db : DB) (vid : Nat) : Nat :=
  (db.ballots.filter (fun b => b.voterId == vid
    && decide (b.status = BallotStatus.CONSUMED))).length

/-- Number of ACTIVE ballots a voter has in a given state. -/
def activeCount (db : DB) (vid : Nat) : Nat :=
  (db.ballots.filter (fun b => b.voterId == vid
    && decide (b.status = BallotStatus.ACTIVE))).length

example : upperStr "aBc1" = "ABC1" := by decide

example : bcryptCompare "123456" (bcryptHash "123456") = true := by decide

/-! Concrete fixtures used by the witness and counterexample theorems and by
the reachability traces. -/

/-- An eligible voter with both contact channels on file. -/
def voterW : Voter :=
  { id := 1, regNo := "REG1", status := VoterStatus.ELIGIBLE
    email := some "v@example.com", phone := some "0700000000" }

/-- A position whose voting window is [0, 1000000]. -/
def positionW : Position :=
  { id := 1, name := "President", votingOpens := 0, votingCloses := 1000000 }

/-- An approved candidate for positionW. -/
def candW : Candidate := { id := 1, positionId := 1, status := CandStatus.APPROVED }

/-- A second approved candidate for positionW. -/
def candW2 : Candidate := { id := 2, positionId := 1, status := CandStatus.APPROVED }

/-- An ACTIVE ballot of voterW with token "T". -/
def ballotW : Ballot :=
  { id := 1, voterId := 1, token := "T", status := BallotStatus.ACTIVE
    issuedAt := 0, consumedAt := none }

/-- State with voterW holding the ACTIVE ballot ballotW, one open position and
two approved candidates, no votes yet. -/
def dbBase : DB :=
  { voters := [voterW], verifications := [], ballots := [ballotW]
    positions := [positionW], candidates := [candW, candW2]
    votes := [], auditLog := [] }

/-- State with voterW, the open position and candidates, but no ballots or
challenges yet (the start of the reachability traces). -/
def db0 : DB :=
  { voters := [voterW], verifications := [], ballots := []
    positions := [positionW], candidates := [candW, candW2]
    votes := [], auditLog := [] }

example : (castVote dbBase 50 "T" [⟨1, 1⟩] true true).1 = Resp.castSuccess 1 := by decide

example : (castVote dbBase 50 "T" [⟨1, 1⟩, ⟨1, 2⟩] true true).1 = Resp.windowClosed [] := by
  decide

example : (castVote dbBase 1000000 "T" [⟨1, 1⟩] true true).1 = Resp.castSuccess 1 := by decide

example : (castVote dbBase 1000001 "T" [⟨1, 1⟩] true true).1
    = Resp.windowClosed ["President"] := by decide

example : (requestOTP db0 0 "REG1" (bcryptHash "111111") true true true).1
    = Resp.deliveryFailed := by decide

/-! Reachability trace for the lifetime one-vote question: voterW goes through
request-otp, confirm-otp twice (before redeeming anything), then redeems both
ACTIVE ballots. -/

/-- State after the first POST /verify/request-otp at t=0 (the challenge row is
created whatever the delivery outcomes are). -/
def traceS1 : DB := (requestOTP db0 0 "REG1" (bcryptHash "111111") true true true).2

/-- State after the first POST /verify/confirm-otp at t=1000: ballot "tokA". -/
def traceS2 : DB := (confirmOTP traceS1 1000 "REG1" "111111" "tokA" true).2

/-- State after the second POST /verify/request-otp at t=2000 (the first
challenge is verified, so the rate limit does not fire). -/
def traceS3 : DB := (requestOTP traceS2 2000 "REG1" (bcryptHash "222222") true true true).2

/-- State after the second POST /verify/confirm-otp at t=3000: ballot "tokB",
while "tokA" is still ACTIVE. -/
def traceS4 : DB := (confirmOTP traceS3 3000 "REG1" "222222" "tokB" true).2

/-- State after POST /vote/cast with token "tokA" at t=4000. -/
def traceS5 : DB := (castVote traceS4 4000 "tokA" [⟨1, 1⟩] true true).2

/-- State after POST /vote/cast with token "tokB" at t=5000. -/
def traceS6 : DB := (castVote traceS5 5000 "tokB" [⟨1, 1⟩] true true).2

example : (confirmOTP traceS1 1000 "REG1" "111111" "tokA" true).1
    = Resp.confirmSuccess "tokA" := by decide

example : (confirmOTP traceS3 3000 "REG1" "222222" "tokB" true).1
    = Resp.confirmSuccess "tokB" := by decide

example : (castVote traceS4 4000 "tokA" [⟨1, 1⟩] true true).1 = Resp.castSuccess 1 := by decide

example : (castVote traceS5 5000 "tokB" [⟨1, 1⟩] true true).1 = Resp.castSuccess 1 := by decide

example : consumedCount traceS6 1 = 2 := by decide

example : activeCount traceS4 1 = 2 := by decide

/-! Auxiliary list lemmas used by the general theorems. -/

/-- The challenge returned by latestBy is one of the rows it searched. -/
theorem latestBy_mem : ∀ {l : List Verification} {c : Verification},
    latestBy l = some c → c ∈ l := by
  intro l
  induction l with
  | nil => intro c h; simp [latestBy] at h
  | cons a as ih =>
    intro c h
    simp only [latestBy] at h
    cases hl : latestBy as with
    | none => rw [hl] at h; simp at h; simp [h]
    | some b =>
      rw [hl] at h
      simp only [Option.some.injEq] at h
      by_cases hc : b.issuedAt < a.issuedAt
      · rw [if_pos hc] at h; simp [h]
      · rw [if_neg hc] at h
        right
        exact h ▸ ih hl

/-- A list whose dedup has full length is duplicate-free. -/
theorem nodup_of_dedup_length_eq {l : List Nat} (h : l.dedup.length = l.length) :
    l.Nodup :=
  List.dedup_eq_self.mp (l.dedup_sublist.eq_of_length h)

/-- Restricting a filter with a further conjunct cannot increase the count. -/
theorem filter_and_length_le {α : Type} (l : List α) (c q : α → Bool) :
    (l.filter (fun p => c p && q p)).length ≤ (l.filter c).length := by
  induction l with
  | nil => simp
  | cons a as ih =>
    by_cases hc : c a = true
    · by_cases hq : q a = true
      · simp [List.filter, hc, hq]; omega
      · simp only [Bool.not_eq_true] at hq
        simp [List.filter, hc, hq]; omega
    · simp only [Bool.not_eq_true] at hc
      simp [List.filter, hc]; exact ih

/-- Restricting a filter with a conjunct that some retained element fails
strictly decreases the count. -/
theorem filter_and_length_lt {α : Type} {l : List α} (c q : α → Bool) {x : α}
    (hx : x ∈ l) (hc : c x = true) (hq : q x = false) :
    (l.filter (fun p => c p && q p)).length < (l.filter c).length := by
  induction l with
  | nil => cases hx
  | cons a as ih =>
    rcases List.mem_cons.mp hx with rfl | hmem
    · have h1 : (as.filter (fun p => c p && q p)).length ≤ (as.filter c).length :=
        filter_and_length_le as c q
      have hcq : (c x && q x) = false := by rw [hq]; simp
      rw [List.filter_cons, List.filter_cons, hcq, hc]
      simp only [Bool.false_eq_true, if_false, if_true, List.length_cons]
      exact Nat.lt_succ_of_le h1
    · have hrec := ih hmem
      by_cases hca : c a = true
      · by_cases hqa : q a = true
        · have hcq : (c a && q a) = true := by rw [hca, hqa]; simp
          rw [List.filter_cons, List.filter_cons, hcq, hca]
          simp only [if_true, List.length_cons]
          exact Nat.succ_lt_succ hrec
        · simp only [Bool.not_eq_true] at hqa
          have hcq : (c a && q a) = false := by rw [hqa]; simp
          rw [List.filter_cons, List.filter_cons, hcq, hca]
          simp only [Bool.false_eq_true, if_false, if_true, List.length_cons]
          exact Nat.lt_succ_of_lt hrec
      · simp only [Bool.not_eq_true] at hca
        have hcq : (c a && q a) = false := by rw [hca]; simp
        rw [List.filter_cons, List.filter_cons, hcq, hca]
        simp only [Bool.false_eq_true, if_false]
        exact hrec

/-- A list with a duplicate has a strictly shorter dedup. -/
theorem dedup_length_lt_of_not_nodup {l : List Nat} (h : ¬ l.Nodup) :
    l.dedup.length < l.length := by
  rcases Nat.lt_or_ge l.dedup.length l.length with h1 | h1
  · exact h1
  · exact absurd (nodup_of_dedup_length_eq
      (Nat.le_antisymm l.dedup_sublist.length_le h1)) h

/-- With pairwise-distinct stored ids, at most one stored row matches each
distinct id of the query list, so the id-membership filter returns no more
rows than there are distinct queried ids. -/
theorem filter_contains_le_dedup (L : List Position) (ids : List Nat)
    (hN : (L.map Position.id).Nodup) :
    (L.filter (fun p => ids.contains p.id)).length ≤ ids.dedup.length := by
  set F := L.filter (fun p => ids.contains p.id) with hF
  have hsub : List.Sublist F L := List.filter_sublist L
  have hmapN : (F.map Position.id).Nodup := hN.sublist (hsub.map Position.id)
  have hss : (F.map Position.id) ⊆ ids.dedup := by
    intro y hy
    rcases List.mem_map.mp hy with ⟨p, hpF, rfl⟩
    have := List.of_mem_filter hpF
    rw [List.mem_dedup]
    simpa using this
  have := (hmapN.subperm hss).length_le
  rw [List.length_map] at this
  exact this

/-- find? on a regNo-keyed list with pairwise-distinct keys returns exactly
the stored row carrying the searched key. -/
theorem find?_voter : ∀ (l : List Voter) (v : Voter), v ∈ l →
    (l.map Voter.regNo).Nodup → ∀ t : String, v.regNo = t →
    l.find? (fun x => x.regNo == t) = some v := by
  intro l
  induction l with
  | nil => intro v hv; cases hv
  | cons a as ih =>
    intro v hv hn t ht
    rcases List.mem_cons.mp hv with rfl | hmem
    · have : (v.regNo == t) = true := by rw [ht]; simp
      simp [List.find?, this]
    · have hna : a.regNo ∉ as.map Voter.regNo := (List.nodup_cons.mp hn).1
      have hat : (a.regNo == t) = false := by
        apply beq_eq_false_iff_ne.mpr
        intro he
        apply hna
        rw [he, ← ht]
        exact List.mem_map.mpr ⟨v, hmem, rfl⟩
      rw [List.find?]
      rw [hat]
      exact ih v hmem (List.nodup_cons.mp hn).2 t ht

/-- Uppercasing returns the empty string only on the empty string. -/
theorem upperStr_eq_empty_iff (s : String) : upperStr s = "" ↔ s = "" := by
  constructor
  · intro h
    have hd : (upperStr s).data = [] := by rw [h]
    have hm : s.data.map Char.toUpper = [] := hd
    have hnil : s.data = [] := List.map_eq_nil_iff.mp hm
    cases s with
    | mk d =>
      cases hnil
      rfl
  · intro h; rw [h]; rfl

/-- The roster lookup depends on the submitted registration number only
through its uppercasing. -/
theorem lookupVoter_congr (db : DB) {s₁ s₂ : String}
    (h : upperStr s₁ = upperStr s₂) : lookupVoter db s₁ = lookupVoter db s₂ := by
  unfold lookupVoter
  rw [h]

/-- The CONSUMED-ballot existence check is false when no ballot of the voter
is CONSUMED. -/
theorem hasConsumedBallot_eq_false {db : DB} {vid : Nat}
    (h : ∀ b ∈ db.ballots, b.voterId = vid → b.status ≠ BallotStatus.CONSUMED) :
    hasConsumedBallot db vid = false := by
  unfold hasConsumedBallot
  rw [List.any_eq_false]
  intro b hb
  simp only [Bool.and_eq_true, beq_iff_eq, decide_eq_true_eq, not_and]
  intro hvid
  exact h b hb hvid

/-- A fresh unverified challenge of voterW whose code is "123456", issued at
t=0 and expiring at t=300000. -/
def verifW : Verification :=
  { id := 1, voterId := 1, otpHash := bcryptHash "123456", issuedAt := 0
    expiresAt := 300000, verifiedAt := none, consumedAt := none, ballotToken := none }

/-- db0 plus the fresh challenge verifW (no ballots yet). -/
def dbChal : DB := { db0 with verifications := [verifW] }

/-- dbBase plus the fresh challenge verifW (voterW already holds the ACTIVE
ballot ballotW). -/
def dbActive : DB := { dbBase with verifications := [verifW] }

/-- C1: the vote-insert transaction and the ballot update are NOT one atomic
transaction: on the concrete single-selection submission over dbBase, when the
prisma.ballot.update statement fails after the vote-create transaction has
committed, castVote answers 500 yet the Vote row stays recorded while the
ballot is still ACTIVE — the storage state the claim says is unreachable. -/
theorem castVote_ballot_update_outside_transaction :
    (castVote dbBase 50 "T" [⟨1, 1⟩] false true).1 = Resp.internalError
    ∧ (castVote dbBase 50 "T" [⟨1, 1⟩] false true).2.votes
        = [{ ballotId := 1, positionId := 1, candidateId := 1 }]
    ∧ (castVote dbBase 50 "T" [⟨1, 1⟩] false true).2.ballots = [ballotW]
    ∧ ballotW.status = BallotStatus.ACTIVE := by decide

/-- C2 counterexample: at the closing instant itself (now = votingCloses =
1000000) the submission is accepted with 200, not rejected with WINDOW_CLOSED:
the source compares votingCloses gte now, a closed interval, so the claimed
half-open interval [votingOpens, votingCloses) is wrong at the boundary. -/
theorem castVote_accepts_at_closing_instant :
    positionW.votingCloses = 1000000
    ∧ (castVote dbBase 1000000 "T" [⟨1, 1⟩] true true).1 = Resp.castSuccess 1
    ∧ ((castVote dbBase 1000000 "T" [⟨1, 1⟩] true true).1).status = 200 := by decide

/-- C3: a reachable run in which one voter gets two ballots CONSUMED: request
and confirm twice before redeeming (both confirmations succeed because only
CONSUMED ballots are examined), then cast with each token; castVote checks only
the presented ballot, so both casts succeed and consumedCount ends at 2. -/
theorem two_consumed_ballots_reachable :
    (confirmOTP traceS1 1000 "REG1" "111111" "tokA" true).1 = Resp.confirmSuccess "tokA"
    ∧ (confirmOTP traceS3 3000 "REG1" "222222" "tokB" true).1 = Resp.confirmSuccess "tokB"
    ∧ (castVote traceS4 4000 "tokA" [⟨1, 1⟩] true true).1 = Resp.castSuccess 1
    ∧ (castVote traceS5 5000 "tokB" [⟨1, 1⟩] true true).1 = Resp.castSuccess 1
    ∧ consumedCount traceS6 1 = 2 := by decide

/-- C4: requestOTP answers DELIVERY_FAILED (500) for the eligible voter with
both channels whatever the delivery outcomes are — even when both channels
succeed — because the sentMethods check runs before any un-awaited promise
callback can append to the list; the Challenge row is still created. -/
theorem requestOTP_always_delivery_failed :
    (∀ emailOk smsOk auditOk : Bool,
      (requestOTP db0 0 "REG1" (bcryptHash "111111") emailOk smsOk auditOk).1
        = Resp.deliveryFailed)
    ∧ ((requestOTP db0 0 "REG1" (bcryptHash "111111") true true true).1).status = 500
    ∧ (requestOTP db0 0 "REG1" (bcryptHash "111111") true true true).2.verifications.length
        = 1 := by decide

/-- C5 counterexample: confirmOTP awaits logAudit inside the try block, so on
the same valid confirmation the response is 200 with the token when the audit
sink accepts, but the generic 500 when it rejects — an audit failure changes
the HTTP status, contradicting the claim for confirmOTP. -/
theorem confirmOTP_audit_failure_changes_response :
    (confirmOTP dbChal 1000 "REG1" "123456" "NT" true).1 = Resp.confirmSuccess "NT"
    ∧ (confirmOTP dbChal 1000 "REG1" "123456" "NT" false).1 = Resp.internalError
    ∧ (Resp.confirmSuccess "NT").status = 200
    ∧ Resp.internalError.status = 500 := by decide

/-- C6 counterexample: a submission repeating position 1 (window open, both
candidates approved) is rejected with the positions-not-open window error, not
with the malformed-submission error: the duplicate-position check runs after
the window check, and the deduplicating id-in query makes the window count
mismatch fire first. -/
theorem duplicate_position_gets_window_error :
    (castVote dbBase 50 "T" [⟨1, 1⟩, ⟨1, 2⟩] true true).1 = Resp.windowClosed []
    ∧ (castVote dbBase 50 "T" [⟨1, 1⟩, ⟨1, 2⟩] true true).1 ≠ Resp.dupPosition := by decide

/-- C7: every submission that carries two selections for the same position is
rejected with a non-200 response and leaves the store untouched — no Vote row
is written and the ballot status is unchanged.  Whichever earlier check fires
first, the submission can never reach the commit: the commit is guarded by the
one-vote-per-position check, which a duplicated position id always fails. -/
theorem castVote_duplicate_position_rejected
    (db : DB) (now : Nat) (token : String) (votes : List VoteSel)
    (updateOk auditOk : Bool)
    (hdup : ¬ (votes.map (·.positionId)).Nodup) :
    ((castVote db now token votes updateOk auditOk).1).status ≠ 200
    ∧ (castVote db now token votes updateOk auditOk).2 = db := by
  have h1 : ((castVote db now token votes updateOk auditOk).1).status ≠ 200 := by
    simp only [castVote]
    repeat' split
    any_goals simp [Resp.status]
    all_goals exact absurd (nodup_of_dedup_length_eq (by omega)) hdup
  have h2 : (castVote db now token votes updateOk auditOk).2 = db := by
    simp only [castVote]
    repeat' split
    any_goals rfl
    all_goals exact absurd (nodup_of_dedup_length_eq (by omega)) hdup
  exact ⟨h1, h2⟩

/-- C7 witness: the duplicate-position submission over dbBase is rejected with
a non-200 status and dbBase is unchanged. -/
theorem castVote_duplicate_position_rejected_witness :
    ((castVote dbBase 50 "T" [⟨1, 1⟩, ⟨1, 2⟩] true true).1).status ≠ 200
    ∧ (castVote dbBase 50 "T" [⟨1, 1⟩, ⟨1, 2⟩] true true).2 = dbBase :=
  castVote_duplicate_position_rejected dbBase 50 "T" [⟨1, 1⟩, ⟨1, 2⟩] true true
    (by decide)

/-- Key count for the window check: the open-position query returns strictly
fewer rows than there are submitted selections whenever either (a) the
submitted positionIds contain a duplicate, or (b) some submitted id matches a
stored position whose window fails at now — assuming the stored position ids
are pairwise distinct (they are a primary key). -/
theorem openFilter_length_lt (db : DB) (now : Nat) (votes : List VoteSel)
    (hids : (db.positions.map Position.id).Nodup)
    (h : ¬ (votes.map (·.positionId)).Nodup
      ∨ ∃ p ∈ db.positions, (votes.map (·.positionId)).contains p.id = true
          ∧ ¬ (decide (p.votingOpens ≤ now) && decide (now ≤ p.votingCloses)) = true) :
    (openFilter db now votes).length < votes.length := by
  have hbase : (db.positions.filter
      (fun p => (votes.map (·.positionId)).contains p.id)).length
      ≤ (votes.map (·.positionId)).dedup.length :=
    filter_contains_le_dedup db.positions (votes.map (·.positionId)) hids
  have hlen : (votes.map (·.positionId)).length = votes.length := List.length_map _ _
  rcases h with hdup | ⟨p, hp, hcp, hwp⟩
  · have h1 : (openFilter db now votes).length
        ≤ (db.positions.filter
            (fun p => (votes.map (·.positionId)).contains p.id)).length :=
      filter_and_length_le db.positions _ _
    have h2 : (votes.map (·.positionId)).dedup.length
        < (votes.map (·.positionId)).length :=
      dedup_length_lt_of_not_nodup hdup
    omega
  · have h1 : (openFilter db now votes).length
        < (db.positions.filter
            (fun p => (votes.map (·.positionId)).contains p.id)).length :=
      filter_and_length_lt _ _ hp hcp (by
        cases hb : (decide (p.votingOpens ≤ now) && decide (now ≤ p.votingCloses)) with
        | false => rfl
        | true => exact absurd hb hwp)
    have h2 : (votes.map (·.positionId)).dedup.length
        ≤ (votes.map (·.positionId)).length :=
      (votes.map (·.positionId)).dedup_sublist.length_le
    omega

/-- When the ballot resolves and is ACTIVE but the open-position count does
not match the number of selections, castVote stops at the window check and
answers the window error without touching the store. -/
theorem castVote_window_branch (db : DB) (now : Nat) (token : String)
    (votes : List VoteSel) (updateOk auditOk : Bool) (b : Ballot)
    (htok : ¬ token = "")
    (hne : ¬ votes.length = 0)
    (hfind : db.ballots.find? (fun x => x.token == token) = some b)
    (hact : b.status = BallotStatus.ACTIVE)
    (hlen : (openFilter db now votes).length ≠ votes.length) :
    castVote db now token votes updateOk auditOk
      = (Resp.windowClosed (closedNamesFor db now votes), db) := by
  have hcons : ¬ (b.status = BallotStatus.CONSUMED) := by
    rw [hact]
    exact fun h => BallotStatus.noConfusion h
  unfold castVote
  simp only [hfind]
  rw [if_neg htok, if_neg hne, if_neg hcons, if_pos hlen]

/-- C6 amended: castVote orders its checks non-empty submission, then ballot
lookup and status, then voting window, then candidate approval, then
duplicate-position, then prior-vote — the shape check for repeated positions
runs after the window and candidate checks, not before them; and a submission
repeating a position never reaches the malformed-submission rejection: the
deduplicating id-in window query returns fewer rows than selections, so the
submission is rejected at the window check with the positions-not-open error
(assuming the stored position ids are pairwise distinct). -/
theorem castVote_duplicate_hits_window_check
    (db : DB) (now : Nat) (token : String) (votes : List VoteSel)
    (updateOk auditOk : Bool) (b : Ballot)
    (htok : ¬ token = "")
    (hfind : db.ballots.find? (fun x => x.token == token) = some b)
    (hact : b.status = BallotStatus.ACTIVE)
    (hids : (db.positions.map Position.id).Nodup)
    (hdup : ¬ (votes.map (·.positionId)).Nodup) :
    castVote db now token votes updateOk auditOk
      = (Resp.windowClosed (closedNamesFor db now votes), db) := by
  have hne : ¬ votes.length = 0 := by
    intro h0
    rw [List.length_eq_zero] at h0
    rw [h0] at hdup
    exact hdup List.nodup_nil
  have hlt : (openFilter db now votes).length < votes.length :=
    openFilter_length_lt db now votes hids (Or.inl hdup)
  exact castVote_window_branch db now token votes updateOk auditOk b htok hne hfind hact
    (Nat.ne_of_lt hlt)

/-- C6 amended witness: the duplicate-position submission over dbBase lands in
the window-error branch with dbBase unchanged. -/
theorem castVote_duplicate_hits_window_check_witness :
    castVote dbBase 50 "T" [⟨1, 1⟩, ⟨1, 2⟩] true true
      = (Resp.windowClosed (closedNamesFor dbBase 50 [⟨1, 1⟩, ⟨1, 2⟩]), dbBase) :=
  castVote_duplicate_hits_window_check dbBase 50 "T" [⟨1, 1⟩, ⟨1, 2⟩] true true ballotW
    (by decide) (by decide) (by decide) (by decide) (by decide)

/-- C2 amended: the open-for-voting test of castVote is the closed interval
[votingOpens, votingCloses]: a submission targeting a stored position at a
time now strictly greater than its votingCloses is rejected with the window
error (while the closing instant itself is still accepted, see the
counterexample), assuming pairwise-distinct stored position ids. -/
theorem castVote_rejects_after_votingCloses
    (db : DB) (now : Nat) (token : String) (votes : List VoteSel)
    (updateOk auditOk : Bool) (b : Ballot) (p : Position) (v : VoteSel)
    (htok : ¬ token = "")
    (hfind : db.ballots.find? (fun x => x.token == token) = some b)
    (hact : b.status = BallotStatus.ACTIVE)
    (hids : (db.positions.map Position.id).Nodup)
    (hv : v ∈ votes) (hp : p ∈ db.positions) (hpid : p.id = v.positionId)
    (hlate : p.votingCloses < now) :
    castVote db now token votes updateOk auditOk
      = (Resp.windowClosed (closedNamesFor db now votes), db) := by
  have hne : ¬ votes.length = 0 := by
    intro h0
    rw [List.length_eq_zero] at h0
    rw [h0] at hv
    cases hv
  have hcp : (votes.map (·.positionId)).contains p.id = true := by
    have : p.id ∈ votes.map (·.positionId) :=
      List.mem_map.mpr ⟨v, hv, hpid.symm⟩
    simpa using this
  have hwp : ¬ (decide (p.votingOpens ≤ now) && decide (now ≤ p.votingCloses)) = true := by
    simp only [Bool.and_eq_true, decide_eq_true_eq]
    intro hand
    omega
  have hlt : (openFilter db now votes).length < votes.length :=
    openFilter_length_lt db now votes hids (Or.inr ⟨p, hp, hcp, hwp⟩)
  exact castVote_window_branch db now token votes updateOk auditOk b htok hne hfind hact
    (Nat.ne_of_lt hlt)

/-- C2 amended witness: one millisecond-scale instant after the close (now =
2000000 > votingCloses = 1000000) the single-selection submission over dbBase
is rejected with the window error naming the closed position. -/
theorem castVote_rejects_after_votingCloses_witness :
    castVote dbBase 2000000 "T" [⟨1, 1⟩] true true
      = (Resp.windowClosed (closedNamesFor dbBase 2000000 [⟨1, 1⟩]), dbBase) :=
  castVote_rejects_after_votingCloses dbBase 2000000 "T" [⟨1, 1⟩] true true ballotW
    positionW ⟨1, 1⟩ (by decide) (by decide) (by decide) (by decide)
    (by decide) (by decide) (by decide) (by decide)

set_option maxHeartbeats 1600000 in
/-- C5 amended: the castVote audit emission is fire-and-forget — for every
input, whether the audit sink accepts or rejects changes neither the response
nor any stored table (only the audit log itself); by contrast requestOTP and
confirmOTP await their logAudit calls inside the try block, so there a
rejecting sink turns the response into the generic 500 (see the
counterexample). -/
theorem castVote_response_independent_of_audit
    (db : DB) (now : Nat) (token : String) (votes : List VoteSel) (updateOk : Bool) :
    (castVote db now token votes updateOk true).1
      = (castVote db now token votes updateOk false).1
    ∧ (castVote db now token votes updateOk true).2.ballots
      = (castVote db now token votes updateOk false).2.ballots
    ∧ (castVote db now token votes updateOk true).2.votes
      = (castVote db now token votes updateOk false).2.votes
    ∧ (castVote db now token votes updateOk true).2.verifications
      = (castVote db now token votes updateOk false).2.verifications := by
  refine ⟨?_, ?_, ?_, ?_⟩ <;> (unfold castVote; repeat' split) <;> rfl

/-- C8: for a voter already holding an ACTIVE ballot and no CONSUMED one, who
has a fresh valid unverified challenge and presents the matching code,
confirmOTP succeeds (200 with the new token) and creates a second ACTIVE
ballot: the eligibility re-check looks only at CONSUMED ballots, so the
existing ACTIVE ballot does not block issuance. -/
theorem confirmOTP_issues_second_active_ballot
    (db : DB) (now : Nat) (reg_no otp newToken : String) (v : Voter)
    (verif : Verification)
    (hro : ¬ reg_no = "") (hoo : ¬ otp = "")
    (hv : lookupVoter db reg_no = some v)
    (hc : locateChallenge db v.id now = some verif)
    (hhash : bcryptCompare otp verif.otpHash = true)
    (hnocons : ∀ b ∈ db.ballots, b.voterId = v.id → b.status ≠ BallotStatus.CONSUMED)
    (hactive : 1 ≤ activeCount db v.id) :
    (confirmOTP db now reg_no otp newToken true).1 = Resp.confirmSuccess newToken
    ∧ activeCount (confirmOTP db now reg_no otp newToken true).2 v.id
        = activeCount db v.id + 1
    ∧ 2 ≤ activeCount (confirmOTP db now reg_no otp newToken true).2 v.id := by
  have hnot : ¬ (reg_no = "" ∨ otp = "") := by
    intro h
    rcases h with h | h
    · exact hro h
    · exact hoo h
  have hcmp : ¬ (bcryptCompare otp verif.otpHash = false) := by
    rw [hhash]
    exact fun h => Bool.noConfusion h
  have hcons := hasConsumedBallot_eq_false hnocons
  have heq : confirmOTP db now reg_no otp newToken true
      = (Resp.confirmSuccess newToken,
          appendAudit (afterIssue db verif.id v.id newToken now)
            true "OTP_VERIFIED_BALLOT_ISSUED") := by
    unfold confirmOTP
    simp only [hv, hc]
    rw [if_neg hnot, if_neg hcmp, if_neg (by rw [hcons]; exact fun h => Bool.noConfusion h),
      if_pos trivial]
  have hcount : activeCount (confirmOTP db now reg_no otp newToken true).2 v.id
      = activeCount db v.id + 1 := by
    rw [heq]
    simp [activeCount, appendAudit, afterIssue, recordBallotToken, addBallot,
      markVerifiedAt, newBallotOf, List.filter_append]
  refine ⟨by rw [heq], hcount, by omega⟩

/-- C8 witness: over dbActive (voterW holds the ACTIVE ballotW and the fresh
challenge verifW), confirming the correct code succeeds and leaves voterW with
two ACTIVE ballots. -/
theorem confirmOTP_issues_second_active_ballot_witness :
    (confirmOTP dbActive 1000 "REG1" "123456" "NT" true).1 = Resp.confirmSuccess "NT"
    ∧ activeCount (confirmOTP dbActive 1000 "REG1" "123456" "NT" true).2 1
        = activeCount dbActive 1 + 1
    ∧ 2 ≤ activeCount (confirmOTP dbActive 1000 "REG1" "123456" "NT" true).2 1 := by
  have h := confirmOTP_issues_second_active_ballot dbActive 1000 "REG1" "123456" "NT"
    voterW verifW (by decide) (by decide) (by decide) (by decide) (by decide)
    (by decide) (by decide)
  exact h

/-- An unverified challenge of voterW whose expiry (t=500) has already passed
at the confirmation instant used in the witness (t=1000). -/
def verifExpired : Verification :=
  { id := 1, voterId := 1, otpHash := bcryptHash "123456", issuedAt := 0
    expiresAt := 500, verifiedAt := none, consumedAt := none, ballotToken := none }

/-- db0 plus the expired challenge verifExpired. -/
def dbExpired : DB := { db0 with verifications := [verifExpired] }

/-- A fresher valid challenge of voterW carrying a different code, issued
after verifExpired and still unexpired at t=1000. -/
def verifValid2 : Verification :=
  { id := 2, voterId := 1, otpHash := bcryptHash "654321", issuedAt := 600
    expiresAt := 300600, verifiedAt := none, consumedAt := none, ballotToken := none }

/-- db0 plus the expired challenge verifExpired and the fresher valid
challenge verifValid2 for the same voter. -/
def dbTwoChal : DB := { db0 with verifications := [verifExpired, verifValid2] }

/-- C9 counterexample: presenting the correct code of an expired challenge
("123456", which matches verifExpired past its expiry) does not always yield
NO_VALID_CHALLENGE: when the voter also holds a fresher valid challenge with
another code, the query locates that valid challenge, the hash comparison
fails, and the answer is INVALID_OTP with status 401 — not the claimed 400
NO_VALID_CHALLENGE. -/
theorem expired_code_with_fresh_challenge_gets_invalidOTP :
    verifExpired.expiresAt < 1000
    ∧ bcryptCompare "123456" verifExpired.otpHash = true
    ∧ (confirmOTP dbTwoChal 1000 "REG1" "123456" "NT" true).1 = Resp.invalidOTP
    ∧ ((confirmOTP dbTwoChal 1000 "REG1" "123456" "NT" true).1).status = 401
    ∧ Resp.invalidOTP ≠ Resp.noValidChallenge := by decide

/-- C9 amended: the challenge query of confirmOTP only ever locates rows with
verified-at unset, consumed-at unset and expiry not yet passed, so an expired
challenge is never compared against; confirming the correct code of an expired
challenge therefore fails — with NO_VALID_CHALLENGE (400) when the voter has
no valid challenge at all, but with INVALID_OTP (401) when a fresher valid
challenge carrying a different code exists, since that one is located and the
hash comparison fails. -/
theorem confirmOTP_expired_challenge_rejected :
    (∀ (db : DB) (vid now : Nat) (c : Verification),
        locateChallenge db vid now = some c →
        c.verifiedAt = none ∧ c.consumedAt = none ∧ now ≤ c.expiresAt)
    ∧ (∀ (db : DB) (now : Nat) (reg_no otp newToken : String) (auditOk : Bool)
        (v : Voter),
        ¬ reg_no = "" → ¬ otp = "" → lookupVoter db reg_no = some v →
        (∀ c ∈ db.verifications, c.voterId = v.id → c.expiresAt < now) →
        confirmOTP db now reg_no otp newToken auditOk = (Resp.noValidChallenge, db))
    ∧ (∀ (db : DB) (now : Nat) (reg_no otp newToken : String)
        (v : Voter) (verif : Verification),
        ¬ reg_no = "" → ¬ otp = "" → lookupVoter db reg_no = some v →
        locateChallenge db v.id now = some verif →
        bcryptCompare otp verif.otpHash = false →
        (confirmOTP db now reg_no otp newToken true).1 = Resp.invalidOTP) := by
  refine ⟨?_, ?_, ?_⟩
  · intro db vid now c h
    have hm : c ∈ db.verifications.filter (validChallenge now vid) := latestBy_mem h
    have hval : validChallenge now vid c = true := List.of_mem_filter hm
    unfold validChallenge at hval
    simp only [Bool.and_eq_true, beq_iff_eq, Option.isNone_iff_eq_none,
      decide_eq_true_eq] at hval
    exact ⟨hval.1.1.2, hval.1.2, hval.2⟩
  · intro db now reg_no otp newToken auditOk v hro hoo hv hexp
    have hnot : ¬ (reg_no = "" ∨ otp = "") := by
      intro h
      rcases h with h | h
      · exact hro h
      · exact hoo h
    have hfil : db.verifications.filter (validChallenge now v.id) = [] := by
      rw [List.filter_eq_nil_iff]
      intro c hc hval
      unfold validChallenge at hval
      simp only [Bool.and_eq_true, beq_iff_eq, Option.isNone_iff_eq_none,
        decide_eq_true_eq] at hval
      have := hexp c hc hval.1.1.1
      omega
    have hloc : locateChallenge db v.id now = none := by
      unfold locateChallenge
      rw [hfil]
      rfl
    unfold confirmOTP
    simp only [hv, hloc]
    rw [if_neg hnot]
  · intro db now reg_no otp newToken v verif hro hoo hv hc hcmp
    have hnot : ¬ (reg_no = "" ∨ otp = "") := by
      intro h
      rcases h with h | h
      · exact hro h
      · exact hoo h
    unfold confirmOTP
    simp only [hv, hc]
    rw [if_neg hnot, if_pos hcmp, if_pos trivial]

/-- C9 witness: over dbExpired at t=1000 the correct code "123456" of the
expired challenge is refused with NO_VALID_CHALLENGE and the store is
unchanged; over dbTwoChal, where a fresher valid challenge with another code
exists, the same code is refused with INVALID_OTP. -/
theorem confirmOTP_expired_challenge_rejected_witness :
    confirmOTP dbExpired 1000 "REG1" "123456" "NT" true
      = (Resp.noValidChallenge, dbExpired)
    ∧ (confirmOTP dbTwoChal 1000 "REG1" "123456" "NT" true).1 = Resp.invalidOTP :=
  ⟨confirmOTP_expired_challenge_rejected.2.1 dbExpired 1000 "REG1" "123456" "NT" true
      voterW (by decide) (by decide) (by decide) (by decide),
    confirmOTP_expired_challenge_rejected.2.2 dbTwoChal 1000 "REG1" "123456" "NT"
      voterW verifValid2 (by decide) (by decide) (by decide) (by decide) (by decide)⟩

/-- C10: both public endpoints resolve the voter through the uppercased
registration number — two submitted spellings with the same uppercasing give
identical requestOTP and confirmOTP results — and for a voter stored under an
uppercase key (with roster keys pairwise distinct, regNo being unique), every
casing whose uppercasing equals that key designates exactly that voter. -/
theorem regNo_case_insensitive :
    (∀ (db : DB) (now : Nat) (s₁ s₂ otpHash : String) (emailOk smsOk auditOk : Bool),
        upperStr s₁ = upperStr s₂ →
        requestOTP db now s₁ otpHash emailOk smsOk auditOk
          = requestOTP db now s₂ otpHash emailOk smsOk auditOk)
    ∧ (∀ (db : DB) (now : Nat) (s₁ s₂ otp newToken : String) (auditOk : Bool),
        upperStr s₁ = upperStr s₂ →
        confirmOTP db now s₁ otp newToken auditOk
          = confirmOTP db now s₂ otp newToken auditOk)
    ∧ (∀ (db : DB) (s : String) (v : Voter),
        v ∈ db.voters → (db.voters.map Voter.regNo).Nodup →
        upperStr s = v.regNo → lookupVoter db s = some v) := by
  refine ⟨?_, ?_, ?_⟩
  · intro db now s₁ s₂ otpHash emailOk smsOk auditOk hup
    by_cases h1 : s₁ = ""
    · have h2 : s₂ = "" := by
        rw [← upperStr_eq_empty_iff]
        rw [← hup, h1]
        rfl
      rw [h1, h2]
    · have h2 : ¬ s₂ = "" := by
        intro h2
        apply h1
        rw [← upperStr_eq_empty_iff, hup, h2]
        rfl
      unfold requestOTP
      rw [if_neg h1, if_neg h2, lookupVoter_congr db hup]
  · intro db now s₁ s₂ otp newToken auditOk hup
    by_cases h1 : s₁ = ""
    · have h2 : s₂ = "" := by
        rw [← upperStr_eq_empty_iff]
        rw [← hup, h1]
        rfl
      rw [h1, h2]
    · have h2 : ¬ s₂ = "" := by
        intro h2
        apply h1
        rw [← upperStr_eq_empty_iff, hup, h2]
        rfl
      by_cases ho : otp = ""
      · unfold confirmOTP
        rw [if_pos (Or.inr ho), if_pos (Or.inr ho)]
      · have hn1 : ¬ (s₁ = "" ∨ otp = "") := by
          intro h
          rcases h with h | h
          · exact h1 h
          · exact ho h
        have hn2 : ¬ (s₂ = "" ∨ otp = "") := by
          intro h
          rcases h with h | h
          · exact h2 h
          · exact ho h
        unfold confirmOTP
        rw [if_neg hn1, if_neg hn2, lookupVoter_congr db hup]
  · intro db s v hv hn hus
    unfold lookupVoter
    exact find?_voter db.voters v hv hn (upperStr s) hus.symm

/-- C10 witness: the lowercase spelling "reg1" behaves exactly like the stored
key "REG1" on both endpoints and resolves to voterW. -/
theorem regNo_case_insensitive_witness :
    requestOTP db0 0 "reg1" (bcryptHash "111111") true true true
      = requestOTP db0 0 "REG1" (bcryptHash "111111") true true true
    ∧ confirmOTP dbChal 1000 "reg1" "123456" "NT" true
      = confirmOTP dbChal 1000 "REG1" "123456" "NT" true
    ∧ lookupVoter db0 "reg1" = some voterW :=
  ⟨regNo_case_insensitive.1 db0 0 "reg1" "REG1" (bcryptHash "111111") true true true
      (by decide),
    regNo_case_insensitive.2.1 dbChal 1000 "reg1" "REG1" "123456" "NT" true (by decide),
    regNo_case_insensitive.2.2 db0 "reg1" voterW (by decide) (by decide) (by decide)⟩
